import Mathlib

/-!
Verification development for the client-side Ethereum filter manager
(`FilterMgr`) of the Tiny.Web3 repository.

The JavaScript source is shallowly embedded: JS primitive values that flow
through the filter code are modelled by `JsVal` (strings, integer numbers,
`NaN`, `undefined`), JS `Map`s by insertion-ordered association lists with
JS `Map` semantics (SameValueZero key equality, in-place update on `set`),
promises/exceptions by `Except String`, and the RPC transport by an
explicit oracle (`Rpc`) together with a trace of the calls an operation
issues (`List RpcCall`).  `setTimeout` timers are modelled by an explicit
status (`pending deadline` / `cleared` / `fired`) driven by the wall-clock
argument of the operations that arm them.
-/

namespace Web3

/-- JS primitive values occurring in the filter manager: strings, integer
numbers, `NaN` and `undefined`.  (Only integral numbers arise: every number
in the source is produced by `parseInt`, integer arithmetic, or literals.) -/
inductive JsVal where
  | vstr (s : String)
  | vnum (n : Int)
  | vnan
  | vundef
deriving DecidableEq, Repr

/-- JS truthiness of a `JsVal` (`""`, `0`, `NaN`, `undefined` are falsy). -/
def truthy : JsVal → Bool
  | .vstr s => s ≠ ""
  | .vnum n => n ≠ 0
  | .vnan => false
  | .vundef => false

/-- Value of a hexadecimal digit character, if it is one. -/
def hexDigit? (c : Char) : Option Nat :=
  if '0'.toNat ≤ c.toNat ∧ c.toNat ≤ '9'.toNat then some (c.toNat - '0'.toNat)
  else if 'a'.toNat ≤ c.toNat ∧ c.toNat ≤ 'f'.toNat then some (c.toNat - 'a'.toNat + 10)
  else if 'A'.toNat ≤ c.toNat ∧ c.toNat ≤ 'F'.toNat then some (c.toNat - 'A'.toNat + 10)
  else none

/-- Value of a decimal digit character, if it is one. -/
def decDigit? (c : Char) : Option Nat :=
  if '0'.toNat ≤ c.toNat ∧ c.toNat ≤ '9'.toNat then some (c.toNat - '0'.toNat) else none

/-- Accumulate hex digits (longest valid prefix), as `parseInt` does after
the first digit. -/
def hexAcc : List Char → Nat → Nat
  | [], acc => acc
  | c :: cs, acc =>
    match hexDigit? c with
    | some d => hexAcc cs (acc * 16 + d)
    | none => acc

/-- Parse the longest valid hex-digit prefix of a character list; `none`
when it does not start with a hex digit (`parseInt` yields `NaN` then). -/
def hexPrefixVal : List Char → Option Nat
  | [] => none
  | c :: cs => (hexDigit? c).map (fun d => hexAcc cs d)

/-- Drop an optional `0x`/`0X` prefix (allowed by `parseInt` at radix 16). -/
def stripHexPrefix : List Char → List Char
  | '0' :: 'x' :: rest => rest
  | '0' :: 'X' :: rest => rest
  | cs => cs

/-- JS `Number.parseInt(s, 16)`: skip leading spaces, optional sign,
optional `0x` prefix, then the longest hex-digit prefix; `NaN` if there is
no digit. -/
def jsParseInt16 (s : String) : JsVal :=
  let cs := s.toList.dropWhile (· = ' ')
  match cs with
  | '-' :: rest =>
    match hexPrefixVal (stripHexPrefix rest) with
    | none => .vnan
    | some n => .vnum (-(n : Int))
  | '+' :: rest =>
    match hexPrefixVal (stripHexPrefix rest) with
    | none => .vnan
    | some n => .vnum (n : Int)
  | _ =>
    match hexPrefixVal (stripHexPrefix cs) with
    | none => .vnan
    | some n => .vnum (n : Int)

/-- JS `String(v)` for the values that reach `parseInt` in this code. -/
def jsToString : JsVal → String
  | .vstr s => s
  | .vnum n => toString n
  | .vnan => "NaN"
  | .vundef => "undefined"

/-- Source `hexToInt`: `hex && Number.parseInt(hex, 16)` — a falsy argument
is returned unchanged, otherwise it is stringified and parsed at radix 16. -/
def hexToInt (v : JsVal) : JsVal :=
  if truthy v then jsParseInt16 (jsToString v) else v

/-- JS `n.toString(16)` for the values `intToHex` is applied to (numbers;
`String.prototype.toString` ignores the radix argument). -/
def jsToStringRadix16 : JsVal → String
  | .vnum n =>
    if n < 0 then "-" ++ (Nat.toDigits 16 n.natAbs).asString
    else (Nat.toDigits 16 n.natAbs).asString
  | .vstr s => s
  | .vnan => "NaN"
  | .vundef => "undefined"

/-- Source `intToHex`: ``int && `0x${int.toString(16)}` `` — a falsy
argument (in particular the height `0`) is returned unchanged rather than
hex-encoded. -/
def intToHex (v : JsVal) : JsVal :=
  if truthy v then .vstr ("0x" ++ jsToStringRadix16 v) else v

/-- All-digits hexadecimal value of a character list (`none` on any
non-hex character); used by string-to-number coercion for `0x` literals. -/
def allHexVal (cs : List Char) : Option Nat :=
  cs.foldl
    (fun acc c =>
      match acc, hexDigit? c with
      | some a, some d => some (a * 16 + d)
      | _, _ => none)
    (some 0)

/-- All-digits decimal value of a character list (`none` on any non-digit
character). -/
def allDecVal (cs : List Char) : Option Nat :=
  cs.foldl
    (fun acc c =>
      match acc, decDigit? c with
      | some a, some d => some (a * 10 + d)
      | _, _ => none)
    (some 0)

/-- JS `ToNumber` on a string, restricted to the integer literal forms that
occur in this code (decimal and `0x`-hexadecimal); `none` models `NaN`.
The fractional/exponent forms never reach a numeric coercion here. -/
def jsStrToNumber (s : String) : Option Int :=
  let cs := ((s.toList.dropWhile (· = ' ')).reverse.dropWhile (· = ' ')).reverse
  match cs with
  | [] => some 0
  | '0' :: 'x' :: rest => if rest = [] then none else allHexVal rest
  | '0' :: 'X' :: rest => if rest = [] then none else allHexVal rest
  | '-' :: rest => if rest = [] then none else (allDecVal rest).map (fun n => -(n : Int))
  | '+' :: rest => if rest = [] then none else (allDecVal rest).map (fun n => (n : Int))
  | _ => allDecVal cs

/-- JS `ToNumber` of a `JsVal`, `none` modelling `NaN`. -/
def jsToNumberOpt : JsVal → Option Int
  | .vnum n => some n
  | .vnan => none
  | .vundef => none
  | .vstr s => jsStrToNumber s

/-- JS `a > b`: lexicographic when both operands are strings, otherwise by
`ToNumber`, with any `NaN` making the comparison false. -/
def jsGT (a b : JsVal) : Bool :=
  match a, b with
  | .vstr x, .vstr y => decide (y < x)
  | _, _ =>
    match jsToNumberOpt a, jsToNumberOpt b with
    | some x, some y => decide (x > y)
    | _, _ => false

/-- JS `a >= b`: negation of `a < b`, with any `NaN` making it false. -/
def jsGE (a b : JsVal) : Bool :=
  match a, b with
  | .vstr x, .vstr y => !decide (x < y)
  | _, _ =>
    match jsToNumberOpt a, jsToNumberOpt b with
    | some x, some y => decide (x ≥ y)
    | _, _ => false

/-- Source `intRange(from, to)`: `[]` when `from >= to`, otherwise the
heights `from, from+1, …, to-1` (note: the lower bound is included and the
upper bound excluded). -/
def intRange (f t : Int) : List Int :=
  if f ≥ t then [] else (List.range (t - f).toNat).map (fun (i : Nat) => (i : Int) + f)

/-- JS `Map.get` on an insertion-ordered association list (SameValueZero
key equality, which `DecidableEq JsVal` matches: `NaN` equals `NaN`). -/
def mapGet {α : Type} : List (JsVal × α) → JsVal → Option α
  | [], _ => none
  | (k', v) :: rest, k => if k' = k then some v else mapGet rest k

/-- JS `Map.set`: update in place if the key is present, else append. -/
def mapSet {α : Type} : List (JsVal × α) → JsVal → α → List (JsVal × α)
  | [], k, v => [(k, v)]
  | (k', v') :: rest, k, v =>
    if k' = k then (k', v) :: rest else (k', v') :: mapSet rest k v

/-- JS `Map.delete` (on the key-distinct maps the manager builds, removing
every matching entry coincides with removing the unique one). -/
def mapDelete {α : Type} (m : List (JsVal × α)) (k : JsVal) : List (JsVal × α) :=
  m.filter (fun p => !(p.1 = k : Bool))

theorem mapGet_mapSet {α : Type} (m : List (JsVal × α)) (k k' : JsVal) (v : α) :
    mapGet (mapSet m k v) k' = if k = k' then some v else mapGet m k' := by
  induction m with
  | nil =>
    by_cases h : k = k' <;> simp [mapSet, mapGet, h]
  | cons p rest ih =>
    obtain ⟨k₁, v₁⟩ := p
    by_cases h1 : k₁ = k
    · subst h1
      by_cases h2 : k₁ = k' <;> simp [mapSet, mapGet, h2]
    · by_cases h2 : k₁ = k'
      · subst h2
        simp [mapSet, mapGet, h1]
        rw [if_neg (fun h => h1 h.symm)]
      · simp [mapSet, mapGet, h1, h2, ih]

theorem mapGet_mapDelete {α : Type} (m : List (JsVal × α)) (k k' : JsVal) :
    mapGet (mapDelete m k) k' = if k = k' then none else mapGet m k' := by
  induction m with
  | nil => by_cases h : k = k' <;> simp [mapDelete, mapGet, h]
  | cons p rest ih =>
    obtain ⟨k₁, v₁⟩ := p
    by_cases h1 : k₁ = k
    · subst h1
      by_cases h2 : k₁ = k' <;> simp_all [mapDelete, mapGet]
    · by_cases h2 : k₁ = k'
      · subst h2
        simp_all [mapDelete, mapGet]
        intro h; exact absurd h.symm h1
      · simp_all [mapDelete, mapGet]

/-- The value of a filter's `addresses` field / of `params.address` after
normalization: JS `null`, or an array of address strings; `undefA` stands
for the `undefined` read off a non-object options value. -/
inductive AddrVal where
  | undefA
  | nullA
  | listA (l : List String)
deriving DecidableEq, Repr

/-- JS truthiness of an `AddrVal` (arrays are truthy, even when empty). -/
def AddrVal.isTruthy : AddrVal → Bool
  | .undefA => false
  | .nullA => false
  | .listA _ => true

/-- The value of a `topics` field: `undefined` or an array (entries kept
opaque as `JsVal`s; slot semantics belong to the log-query source). -/
inductive TopicsVal where
  | undefT
  | listT (l : List JsVal)
deriving DecidableEq, Repr

/-- Normalized log-filter criteria, as built by `_normalizeFilter`. -/
structure LogOptions where
  fromBlock : JsVal
  toBlock : JsVal
  addresses : AddrVal
  topics : List JsVal
deriving DecidableEq, Repr

/-- A filter's `options` field: the normalized criteria object for a log
filter, or the plain string `'latest'` / `'pending'` for block/tx filters. -/
inductive FilterOptions where
  | logOpts (o : LogOptions)
  | strOpt (s : String)
deriving DecidableEq, Repr

/-- JS truthiness of an options value (objects are always truthy). -/
def FilterOptions.isTruthy : FilterOptions → Bool
  | .logOpts _ => true
  | .strOpt s => s ≠ ""

/-- Reading `.fromBlock` off the options value (gives `undefined` when the
options value is a plain string). -/
def FilterOptions.getFromBlock : FilterOptions → JsVal
  | .strOpt _ => .vundef
  | .logOpts o => o.fromBlock

/-- Reading `.toBlock` off the options value. -/
def FilterOptions.getToBlock : FilterOptions → JsVal
  | .strOpt _ => .vundef
  | .logOpts o => o.toBlock

/-- Reading `.addresses` off the options value. -/
def FilterOptions.getAddresses : FilterOptions → AddrVal
  | .logOpts o => o.addresses
  | .strOpt _ => .undefA

/-- Reading `.topics` off the options value. -/
def FilterOptions.getTopics : FilterOptions → TopicsVal
  | .logOpts o => .listT o.topics
  | .strOpt _ => .undefT

/-- The kind tag of a filter (`'log'` / `'block'` / `'tx'`). -/
inductive FilterType where
  | log
  | block
  | tx
deriving DecidableEq, Repr

/-- One registry entry, as built by `newFilter` / `newBlockFilter` /
`newPendingTransactionFilter` and `_installFilter`. -/
structure Filter where
  type : FilterType
  options : FilterOptions
  id : JsVal
deriving DecidableEq, Repr

/-- Status of one `setTimeout` handle held in `this.timers`: still pending
with its firing deadline, cancelled by `clearTimeout`, or already fired. -/
inductive TimerStatus where
  | pending (deadline : Nat)
  | cleared
  | fired
deriving DecidableEq, Repr

/-- The mutable state of a `FilterMgr` instance: the three `Map`s. -/
structure MgrState where
  filters : List (JsVal × Filter)
  blockNumbers : List (JsVal × JsVal)
  timers : List (JsVal × TimerStatus)
deriving DecidableEq, Repr

/-- `this.timeoutInterval = 5 * 60 * 1000` (milliseconds). -/
def timeoutInterval : Nat := 5 * 60 * 1000

/-- The state of a freshly constructed `FilterMgr`. -/
def initState : MgrState := ⟨[], [], []⟩

/-- A block as returned by `rpc.getBlockByNumber`. -/
structure Block where
  hash : String
  transactions : List String
deriving DecidableEq, Repr

/-- The query object handed to `rpc.getFilterLogs`.  The source builds it
either by `Object.assign({}, filter, {fromBlock, toBlock})` (which carries
the filter's `addresses` key) or by `_normalizeParams` (which carries an
`address` key instead); absent keys are `undefA`/`undefT`. -/
structure LogQuery where
  fromBlock : JsVal
  toBlock : JsVal
  addressesKey : AddrVal
  topicsKey : TopicsVal
  addressKey : AddrVal
deriving DecidableEq, Repr

/-- One observable RPC call issued during an operation. -/
inductive RpcCall where
  | getBlockNumber
  | getBlockByNumber (n : JsVal)
  | getFilterLogs (q : LogQuery)
deriving DecidableEq, Repr

/-- The RPC oracle an operation runs against: the responses the transport
would give during that one call (log records kept opaque as strings). -/
structure Rpc where
  blockNumber : Except String String
  blockByNumber : JsVal → Except String Block
  filterLogs : LogQuery → Except String (List String)

/-- Outcome of one manager operation: the settled promise value, the state
of the manager afterwards, and the RPC calls issued (in issue order). -/
structure OpResult (α : Type) where
  res : Except String α
  state : MgrState
  calls : List RpcCall
deriving Repr

/-- Raw `params[0]` of an `eth_newFilter` payload, as far as the manager
reads it: `fromBlock`, `toBlock`, `address` (absent, single, or array) and
`topics` (absent or array). -/
inductive AddrParam where
  | undefP
  | singleP (a : String)
  | arrP (l : List String)
deriving DecidableEq, Repr

structure RawParams where
  fromBlock : JsVal
  toBlock : JsVal
  address : AddrParam
  topics : TopicsVal
deriving DecidableEq, Repr

namespace FilterMgr

/-- Source `_normalizeFilterBlock`: `undefined`/`'latest'`/`'pending'` →
`'latest'`; `'earliest'` → `0`; a string starting with `0x` → `hexToInt`
of it (which is `NaN`, not an error, when the digits are invalid); any
other string throws `Invalid block option`; a non-string without a
`startsWith` method throws a `TypeError`. -/
def normalizeFilterBlock (blockNumber : JsVal) : Except String JsVal :=
  if blockNumber = JsVal.vundef ∨ blockNumber = JsVal.vstr "latest"
      ∨ blockNumber = JsVal.vstr "pending" then
    .ok (.vstr "latest")
  else if blockNumber = JsVal.vstr "earliest" then
    .ok (.vnum 0)
  else
    match blockNumber with
    | .vstr s =>
      if (match s.toList with | '0' :: 'x' :: _ => true | _ => false) then
        .ok (hexToInt (.vstr s))
      else
        .error ("Invalid block option: " ++ s)
    | _ => .error "TypeError: blockNumber.startsWith is not a function"

/-- Source `_normalizeFilter`: normalize both block bounds (in order, so a
throw on `fromBlock` precedes `toBlock`), wrap a single address, default
absent topics to `[]`. -/
def normalizeFilter (params : RawParams) : Except String LogOptions := do
  let fb ← normalizeFilterBlock params.fromBlock
  let tb ← normalizeFilterBlock params.toBlock
  .ok
    { fromBlock := fb
      toBlock := tb
      addresses :=
        match params.address with
        | .undefP => .nullA
        | .arrP l => .listA l
        | .singleP a => .listA [a]
      topics :=
        match params.topics with
        | .undefT => []
        | .listT l => l }

/-- Source `_normalizeParamBlock`: pass `'latest'` through, hex-encode
everything else with `intToHex` (so the height `0` stays the number `0`). -/
def normalizeParamBlock (blockNumber : JsVal) : JsVal :=
  if blockNumber = JsVal.vstr "latest" then blockNumber else intToHex blockNumber

/-- Source `_normalizeParams`: the query object for `getFilterLogs`, with
an `address` key only when the stored `addresses` value is truthy. -/
def normalizeParams (filter : FilterOptions) : LogQuery :=
  let params : LogQuery :=
    { fromBlock := normalizeParamBlock filter.getFromBlock
      toBlock := normalizeParamBlock filter.getToBlock
      addressesKey := .undefA
      topicsKey := filter.getTopics
      addressKey := .undefA }
  if (filter.getAddresses).isTruthy then
    { params with addressKey := filter.getAddresses }
  else params

/-- Source `_clearTimer`: `clearTimeout` a present handle; the `timers`
map entry itself is never removed, and clearing a non-pending handle is a
no-op. -/
def clearTimer (timers : List (JsVal × TimerStatus)) (filterId : JsVal) :
    List (JsVal × TimerStatus) :=
  match mapGet timers filterId with
  | some (.pending _) => mapSet timers filterId .cleared
  | _ => timers

/-- Source `_setupTimer` invoked at wall-clock time `now`: clear any old
timer and arm a fresh one with deadline `now + timeoutInterval`. -/
def setupTimer (timers : List (JsVal × TimerStatus)) (filterId : JsVal) (now : Nat) :
    List (JsVal × TimerStatus) :=
  mapSet (clearTimer timers filterId) filterId (.pending (now + timeoutInterval))

/-- The arity of the `Map.prototype.keys` method.  The source computes
`const count = this.filters.keys.length`: `keys` is not called, so this
reads `.length` of the method itself — the number of declared parameters,
which is `0` — regardless of how many filters are installed. -/
def mapKeysFnLength : Nat := 0

/-- Source `_installFilter` at wall-clock time `now`: pick
`filters.keys.length + 1` as the id (always `1`, see `mapKeysFnLength`),
stamp it on the filter, store it, arm the timer, return the id. -/
def installFilter (s : MgrState) (filter : Filter) (now : Nat) : Int × MgrState :=
  let count : Int := mapKeysFnLength
  let filterId : Int := count + 1
  let filter := { filter with id := .vnum filterId }
  ( filterId
  , { s with
      filters := mapSet s.filters (.vnum filterId) filter
      timers := setupTimer s.timers (.vnum filterId) now } )

/-- Source `newFilter` at wall-clock time `now`: normalize (throwing
before any state is touched), install the filter and arm its timer, then
fetch the head; only on success is the cursor stored and the hex id
returned — a failed head fetch leaves the installed filter cursorless. -/
def newFilter (rpc : Rpc) (s : MgrState) (payload : RawParams) (now : Nat) :
    OpResult JsVal :=
  match normalizeFilter payload with
  | .error e => ⟨.error e, s, []⟩
  | .ok opts =>
    let filter : Filter := { type := .log, options := .logOpts opts, id := .vundef }
    let (filterId, s) := installFilter s filter now
    match rpc.blockNumber with
    | .error e => ⟨.error e, s, [.getBlockNumber]⟩
    | .ok bn =>
      ⟨.ok (intToHex (.vnum filterId)),
       { s with blockNumbers := mapSet s.blockNumbers (.vnum filterId) (.vstr bn) },
       [.getBlockNumber]⟩

/-- Source `newBlockFilter` at wall-clock time `now`. -/
def newBlockFilter (rpc : Rpc) (s : MgrState) (now : Nat) : OpResult JsVal :=
  let filter : Filter := { type := .block, options := .strOpt "latest", id := .vundef }
  let (filterId, s) := installFilter s filter now
  match rpc.blockNumber with
  | .error e => ⟨.error e, s, [.getBlockNumber]⟩
  | .ok bn =>
    ⟨.ok (intToHex (.vnum filterId)),
     { s with blockNumbers := mapSet s.blockNumbers (.vnum filterId) (.vstr bn) },
     [.getBlockNumber]⟩

/-- Source `newPendingTransactionFilter` at wall-clock time `now`. -/
def newPendingTransactionFilter (rpc : Rpc) (s : MgrState) (now : Nat) : OpResult JsVal :=
  let filter : Filter := { type := .tx, options := .strOpt "pending", id := .vundef }
  let (filterId, s) := installFilter s filter now
  match rpc.blockNumber with
  | .error e => ⟨.error e, s, [.getBlockNumber]⟩
  | .ok bn =>
    ⟨.ok (intToHex (.vnum filterId)),
     { s with blockNumbers := mapSet s.blockNumbers (.vnum filterId) (.vstr bn) },
     [.getBlockNumber]⟩

/-- Source `uninstallFilter`: delete the registry and cursor entries,
clear (but do not remove) the timer entry, always resolve `true`. -/
def uninstallFilter (s : MgrState) (filterId : JsVal) : OpResult Bool :=
  let id := hexToInt filterId
  ⟨.ok true,
   { filters := mapDelete s.filters id
     blockNumbers := mapDelete s.blockNumbers id
     timers := clearTimer s.timers id },
   []⟩

/-- `Promise.all` over the per-height `getBlockByNumber` fetches: every
fetch is issued; the result is the first rejection, else the list in
ascending request order. -/
def allBlocks (rpc : Rpc) : List JsVal → Except String (List Block)
  | [] => .ok []
  | n :: ns =>
    match rpc.blockByNumber n with
    | .error e => .error e
    | .ok b => (allBlocks rpc ns).map (fun bs => b :: bs)

/-- Source `_getBlocksInRange`: empty when `fromBlock >= toBlock` (JS
comparison), otherwise fetch `intRange(fromBlock, toBlock)` hex-encoded,
one call per height.  A non-numeric length (e.g. `NaN`) would make
`new Array(to - from)` throw. -/
def getBlocksInRange (rpc : Rpc) (fromBlock toBlock : JsVal) :
    Except String (List Block) × List RpcCall :=
  if jsGE fromBlock toBlock then (.ok [], [])
  else
    match jsToNumberOpt fromBlock, jsToNumberOpt toBlock with
    | some f, some t =>
      let hs := (intRange f t).map (fun n => intToHex (.vnum n))
      (allBlocks rpc hs, hs.map RpcCall.getBlockByNumber)
    | _, _ => (.error "RangeError: Invalid array length", [])

/-- Source `_getBlocksForFilter`: reject when the cursor is falsy; fetch
the head; advance the cursor to the head **before** any block fetch when
`to > from`; then fetch the range `[from, to)`. -/
def getBlocksForFilter (rpc : Rpc) (s : MgrState) (filterId : JsVal) :
    OpResult (List Block) :=
  let fromBlock := (mapGet s.blockNumbers filterId).getD .vundef
  if !truthy fromBlock then ⟨.error "no filter found", s, []⟩
  else
    match rpc.blockNumber with
    | .error e => ⟨.error e, s, [.getBlockNumber]⟩
    | .ok bn =>
      let toBlock := JsVal.vstr bn
      let f := hexToInt fromBlock
      let t := hexToInt toBlock
      let s' :=
        if jsGT t f then
          { s with blockNumbers := mapSet s.blockNumbers filterId toBlock }
        else s
      let rc := getBlocksInRange rpc f t
      ⟨rc.1, s', .getBlockNumber :: rc.2⟩

/-- Source `_getBlockFilterChanges`: hashes of the fetched blocks. -/
def getBlockFilterChanges (rpc : Rpc) (s : MgrState) (filterId : JsVal) :
    OpResult (List String) :=
  let r := getBlocksForFilter rpc s filterId
  ⟨r.res.map (fun bs => bs.map (fun b => b.hash)), r.state, r.calls⟩

/-- Source `_getTxFilterChanges`: per-block transaction lists. -/
def getTxFilterChanges (rpc : Rpc) (s : MgrState) (filterId : JsVal) :
    OpResult (List (List String)) :=
  let r := getBlocksForFilter rpc s filterId
  ⟨r.res.map (fun bs => bs.map (fun b => b.transactions)), r.state, r.calls⟩

/-- Result of `getFilterChanges`, tagged by the dispatching branch. -/
inductive ChangesResult where
  | logs (l : List String)
  | hashes (l : List String)
  | txs (l : List (List String))
deriving DecidableEq, Repr

/-- Source `_getLogFilterChanges`: look the filter and cursor up, reject
when either is falsy, fetch the head, substitute it for a `'latest'`
`toBlock`, return `[]` when `hexToInt from > hexToInt to`, otherwise issue
the log query over `{...options, fromBlock: cursor, toBlock}`.  The cursor
is never advanced on this path. -/
def getLogFilterChanges (rpc : Rpc) (s : MgrState) (filterId : JsVal) :
    OpResult ChangesResult :=
  match mapGet s.filters filterId with
  | none => ⟨.error "TypeError: Cannot read properties of undefined", s, []⟩
  | some flt =>
    let filter := flt.options
    let fromBlock := (mapGet s.blockNumbers filterId).getD .vundef
    if !filter.isTruthy || !truthy fromBlock then
      ⟨.error "_getLogFilterChanges: no filter found", s, []⟩
    else
      match rpc.blockNumber with
      | .error e => ⟨.error e, s, [.getBlockNumber]⟩
      | .ok bn =>
        let toBlock :=
          if filter.getToBlock = JsVal.vstr "latest" then JsVal.vstr bn
          else filter.getToBlock
        let f := hexToInt fromBlock
        let t := hexToInt toBlock
        if jsGT f t then ⟨.ok (.logs []), s, [.getBlockNumber]⟩
        else
          let q : LogQuery :=
            { fromBlock := fromBlock
              toBlock := toBlock
              addressesKey := filter.getAddresses
              topicsKey := filter.getTopics
              addressKey := .undefA }
          match rpc.filterLogs q with
          | .error e => ⟨.error e, s, [.getBlockNumber, .getFilterLogs q]⟩
          | .ok ls => ⟨.ok (.logs ls), s, [.getBlockNumber, .getFilterLogs q]⟩

/-- Source `getFilterChanges`: decode the hex id, reject when unknown,
dispatch on the filter's type (passing `filter.id`, not the decoded key). -/
def getFilterChanges (rpc : Rpc) (s : MgrState) (filterId : JsVal) :
    OpResult ChangesResult :=
  let id := hexToInt filterId
  match mapGet s.filters id with
  | none => ⟨.error "getFilterChanges: no filter found", s, []⟩
  | some filter =>
    match filter.type with
    | .log => getLogFilterChanges rpc s filter.id
    | .block =>
      let r := getBlockFilterChanges rpc s filter.id
      ⟨r.res.map ChangesResult.hashes, r.state, r.calls⟩
    | .tx =>
      let r := getTxFilterChanges rpc s filter.id
      ⟨r.res.map ChangesResult.txs, r.state, r.calls⟩

/-- Source `getFilterLogs`: look the filter up by decoded id, reject when
unknown, and replay the *stored* criteria through `_normalizeParams` —
the cursor map is never consulted and no head fetch is made. -/
def getFilterLogs (rpc : Rpc) (s : MgrState) (filterId : JsVal) :
    OpResult (List String) :=
  match mapGet s.filters (hexToInt filterId) with
  | none => ⟨.error "no filter found", s, []⟩
  | some filter =>
    let q := normalizeParams filter.options
    match rpc.filterLogs q with
    | .error e => ⟨.error e, s, [.getFilterLogs q]⟩
    | .ok ls => ⟨.ok ls, s, [.getFilterLogs q]⟩

end FilterMgr

/-- The `setTimeout` callback armed by `_setupTimer` firing at wall-clock
time `t`: enabled only for a pending timer whose deadline has passed; it
deletes the registry and cursor entries but leaves the (now fired) timer
entry in the `timers` map. -/
def expireFire (s : MgrState) (filterId : JsVal) (t : Nat) : MgrState :=
  match mapGet s.timers filterId with
  | some (.pending d) =>
    if d ≤ t then
      { filters := mapDelete s.filters filterId
        blockNumbers := mapDelete s.blockNumbers filterId
        timers := mapSet s.timers filterId .fired }
    else s
  | _ => s

/-! ### Helper lemmas -/

theorem clearTimer_get_ne (m : List (JsVal × TimerStatus)) (k k' : JsVal) (h : k ≠ k') :
    mapGet (FilterMgr.clearTimer m k) k' = mapGet m k' := by
  unfold FilterMgr.clearTimer
  cases hg : mapGet m k with
  | none => rfl
  | some st =>
    cases st with
    | pending d => rw [mapGet_mapSet]; simp [h]
    | cleared => rfl
    | fired => rfl

theorem clearTimer_get_self_not_pending (m : List (JsVal × TimerStatus)) (k : JsVal) (d : Nat) :
    mapGet m k = some (.pending d) →
      mapGet (FilterMgr.clearTimer m k) k = some TimerStatus.cleared := by
  intro h
  unfold FilterMgr.clearTimer
  rw [h, mapGet_mapSet]
  simp

theorem setupTimer_get (m : List (JsVal × TimerStatus)) (k k' : JsVal) (now : Nat) :
    mapGet (FilterMgr.setupTimer m k now) k' =
      if k = k' then some (.pending (now + timeoutInterval))
      else mapGet m k' := by
  unfold FilterMgr.setupTimer
  rw [mapGet_mapSet]
  by_cases h : k = k'
  · simp [h]
  · simp [h, clearTimer_get_ne m k k' h]

theorem getLogFilterChanges_state (rpc : Rpc) (s : MgrState) (fid : JsVal) :
    (FilterMgr.getLogFilterChanges rpc s fid).state = s := by
  unfold FilterMgr.getLogFilterChanges
  dsimp only
  repeat' split
  all_goals rfl

theorem getBlocksForFilter_filters (rpc : Rpc) (s : MgrState) (fid : JsVal) :
    (FilterMgr.getBlocksForFilter rpc s fid).state.filters = s.filters := by
  unfold FilterMgr.getBlocksForFilter
  dsimp only
  repeat' split
  all_goals rfl

theorem getBlocksForFilter_timers (rpc : Rpc) (s : MgrState) (fid : JsVal) :
    (FilterMgr.getBlocksForFilter rpc s fid).state.timers = s.timers := by
  unfold FilterMgr.getBlocksForFilter
  dsimp only
  repeat' split
  all_goals rfl

theorem getFilterChanges_filters (rpc : Rpc) (s : MgrState) (fid : JsVal) :
    (FilterMgr.getFilterChanges rpc s fid).state.filters = s.filters := by
  unfold FilterMgr.getFilterChanges
  dsimp only
  cases hg : mapGet s.filters (hexToInt fid) with
  | none => rfl
  | some filter =>
    obtain ⟨ft, fo, fi⟩ := filter
    cases ft with
    | log => exact congrArg MgrState.filters (getLogFilterChanges_state rpc s fi)
    | block => exact getBlocksForFilter_filters rpc s fi
    | tx => exact getBlocksForFilter_filters rpc s fi

theorem getFilterChanges_timers (rpc : Rpc) (s : MgrState) (fid : JsVal) :
    (FilterMgr.getFilterChanges rpc s fid).state.timers = s.timers := by
  unfold FilterMgr.getFilterChanges
  dsimp only
  cases hg : mapGet s.filters (hexToInt fid) with
  | none => rfl
  | some filter =>
    obtain ⟨ft, fo, fi⟩ := filter
    cases ft with
    | log => exact congrArg MgrState.timers (getLogFilterChanges_state rpc s fi)
    | block => exact getBlocksForFilter_timers rpc s fi
    | tx => exact getBlocksForFilter_timers rpc s fi

theorem getFilterLogs_state (rpc : Rpc) (s : MgrState) (fid : JsVal) :
    (FilterMgr.getFilterLogs rpc s fid).state = s := by
  unfold FilterMgr.getFilterLogs
  dsimp only
  repeat' split
  all_goals rfl

theorem allBlocks_ok (rpc : Rpc) (B : JsVal → Block)
    (hB : ∀ n, rpc.blockByNumber n = .ok (B n)) :
    ∀ ns, FilterMgr.allBlocks rpc ns = .ok (ns.map B) := by
  intro ns
  induction ns with
  | nil => rfl
  | cons n ns ih => simp [FilterMgr.allBlocks, hB n, ih, Except.map]

theorem intRange_cons (f t : Int) (h : f < t) :
    intRange f t = f :: intRange (f + 1) t := by
  unfold intRange
  rw [if_neg (by omega)]
  by_cases h1 : f + 1 ≥ t
  · rw [if_pos h1]
    have h2 : (t - f).toNat = 1 := by omega
    rw [h2]
    simp [List.range_succ]
  · rw [if_neg h1]
    have h2 : (t - f).toNat = (t - (f + 1)).toNat + 1 := by omega
    rw [h2, List.range_succ_eq_map]
    simp only [List.map_cons, List.map_map]
    refine List.cons_eq_cons.mpr ⟨by push_cast; ring, ?_⟩
    apply List.map_congr_left
    intro i _
    simp only [Function.comp, Nat.succ_eq_add_one]
    push_cast
    ring

/-- Behaviour of `_getBlocksForFilter` when the stored cursor parses to
`c`, the fetched head parses to `h`, and `c < h`: the cursor is advanced
to the head string before the fetches, and heights `c .. h-1` are fetched
in ascending order. -/
theorem getBlocksForFilter_advance (rpc : Rpc) (s : MgrState) (fid : JsVal)
    (cur hs : String) (c h : Int)
    (hcur : mapGet s.blockNumbers fid = some (.vstr cur))
    (hne : cur ≠ "")
    (hc : hexToInt (.vstr cur) = .vnum c)
    (hbn : rpc.blockNumber = .ok hs)
    (hh : hexToInt (.vstr hs) = .vnum h)
    (hlt : c < h) :
    FilterMgr.getBlocksForFilter rpc s fid =
      ⟨FilterMgr.allBlocks rpc ((intRange c h).map (fun n => intToHex (.vnum n))),
       { s with blockNumbers := mapSet s.blockNumbers fid (.vstr hs) },
       .getBlockNumber ::
         ((intRange c h).map (fun n => intToHex (.vnum n))).map RpcCall.getBlockByNumber⟩ := by
  unfold FilterMgr.getBlocksForFilter
  rw [hcur]
  simp only [Option.getD_some]
  rw [if_neg (by simp [truthy, hne])]
  rw [hbn]
  simp only [hc, hh]
  have hgt : jsGT (.vnum h) (.vnum c) = true := by
    simp [jsGT, jsToNumberOpt]; omega
  rw [if_pos hgt]
  have hrange : FilterMgr.getBlocksInRange rpc (.vnum c) (.vnum h) =
      (FilterMgr.allBlocks rpc ((intRange c h).map (fun n => intToHex (.vnum n))),
       ((intRange c h).map (fun n => intToHex (.vnum n))).map RpcCall.getBlockByNumber) := by
    unfold FilterMgr.getBlocksInRange
    rw [if_neg (by simp [jsGE, jsToNumberOpt]; omega)]
    rfl
  rw [hrange]

/-- Behaviour of `_getBlocksForFilter` when the head does not exceed the
cursor: no cursor write, no block fetch, empty result. -/
theorem getBlocksForFilter_empty (rpc : Rpc) (s : MgrState) (fid : JsVal)
    (cur hs : String) (c h : Int)
    (hcur : mapGet s.blockNumbers fid = some (.vstr cur))
    (hne : cur ≠ "")
    (hc : hexToInt (.vstr cur) = .vnum c)
    (hbn : rpc.blockNumber = .ok hs)
    (hh : hexToInt (.vstr hs) = .vnum h)
    (hle : h ≤ c) :
    FilterMgr.getBlocksForFilter rpc s fid = ⟨.ok [], s, [.getBlockNumber]⟩ := by
  unfold FilterMgr.getBlocksForFilter
  rw [hcur]
  simp only [Option.getD_some]
  rw [if_neg (by simp [truthy, hne])]
  rw [hbn]
  simp only [hc, hh]
  have hgt : jsGT (.vnum h) (.vnum c) = false := by
    simp [jsGT, jsToNumberOpt]; omega
  rw [if_neg (by simp [hgt])]
  have hrange : FilterMgr.getBlocksInRange rpc (.vnum c) (.vnum h) = (.ok [], []) := by
    unfold FilterMgr.getBlocksInRange
    rw [if_pos (by simp [jsGE, jsToNumberOpt]; omega)]
  rw [hrange]

/-- Membership characterization of `intRange`: every height of `[f, t)` is
in the list. -/
theorem mem_intRange (f t k : Int) (h1 : f ≤ k) (h2 : k < t) : k ∈ intRange f t := by
  unfold intRange
  rw [if_neg (by omega)]
  refine List.mem_map.mpr ⟨(k - f).toNat, ?_, by omega⟩
  rw [List.mem_range]
  omega

/-- If the fetch of any requested height fails, the `Promise.all` result
is a rejection. -/
theorem allBlocks_error (rpc : Rpc) (ns : List JsVal) (n : JsVal) (e : String)
    (hmem : n ∈ ns) (he : rpc.blockByNumber n = .error e) :
    ∃ e2, FilterMgr.allBlocks rpc ns = .error e2 := by
  induction ns with
  | nil => cases hmem
  | cons m ms ih =>
    cases hmem with
    | head => exact ⟨e, by simp [FilterMgr.allBlocks, he]⟩
    | tail _ hmem2 =>
      cases hbm : rpc.blockByNumber m with
      | error e3 => exact ⟨e3, by simp [FilterMgr.allBlocks, hbm]⟩
      | ok b =>
        obtain ⟨e3, he3⟩ := ih hmem2
        exact ⟨e3, by simp [FilterMgr.allBlocks, hbm, he3, Except.map]⟩

/-! ### The manager as a transition system

One `Event` is one externally triggered operation (an exposed method call
with the oracle answers it observed, or a timer firing at some wall-clock
time); `run` folds a history of events from a fresh manager. -/

inductive Event where
  | evNewFilter (rpc : Rpc) (payload : RawParams) (now : Nat)
  | evNewBlockFilter (rpc : Rpc) (now : Nat)
  | evNewPendingTxFilter (rpc : Rpc) (now : Nat)
  | evUninstall (filterId : JsVal)
  | evGetChanges (rpc : Rpc) (filterId : JsVal)
  | evGetLogs (rpc : Rpc) (filterId : JsVal)
  | evExpire (filterId : JsVal) (t : Nat)

def step (s : MgrState) : Event → MgrState
  | .evNewFilter rpc p now => (FilterMgr.newFilter rpc s p now).state
  | .evNewBlockFilter rpc now => (FilterMgr.newBlockFilter rpc s now).state
  | .evNewPendingTxFilter rpc now => (FilterMgr.newPendingTransactionFilter rpc s now).state
  | .evUninstall fid => (FilterMgr.uninstallFilter s fid).state
  | .evGetChanges rpc fid => (FilterMgr.getFilterChanges rpc s fid).state
  | .evGetLogs rpc fid => (FilterMgr.getFilterLogs rpc s fid).state
  | .evExpire fid t => expireFire s fid t

def run (es : List Event) : MgrState := es.foldl step initState

/-- The registry/scheduler correspondence that actually holds: an id is in
`filters` exactly when its `timers` entry is a still-pending timer.  (The
`timers` map entry itself outlives the filter: it is merely cleared or
fired, never deleted.) -/
def registryTimerSync (s : MgrState) : Prop :=
  ∀ k, (mapGet s.filters k).isSome = true
    ↔ ∃ d, mapGet s.timers k = some (TimerStatus.pending d)

theorem clearTimer_self_not_pending (m : List (JsVal × TimerStatus)) (k : JsVal) (d : Nat) :
    mapGet (FilterMgr.clearTimer m k) k ≠ some (.pending d) := by
  unfold FilterMgr.clearTimer
  cases hg : mapGet m k with
  | none => simp [hg]
  | some st =>
    cases st with
    | pending d' => rw [mapGet_mapSet]; simp
    | cleared => simp [hg]
    | fired => simp [hg]

theorem sync_install (s : MgrState) (f : Filter) (now : Nat)
    (h : registryTimerSync s) :
    registryTimerSync (FilterMgr.installFilter s f now).2 := by
  intro k
  unfold FilterMgr.installFilter
  dsimp only
  rw [mapGet_mapSet, setupTimer_get]
  by_cases hk : JsVal.vnum ((FilterMgr.mapKeysFnLength : Int) + 1) = k
  · simp [hk]
  · simp only [if_neg hk]
    exact h k

theorem sync_newFilter (rpc : Rpc) (s : MgrState) (p : RawParams) (now : Nat)
    (h : registryTimerSync s) :
    registryTimerSync (FilterMgr.newFilter rpc s p now).state := by
  unfold FilterMgr.newFilter
  cases FilterMgr.normalizeFilter p with
  | error e => exact h
  | ok opts =>
    dsimp only
    cases rpc.blockNumber with
    | error e => exact sync_install s _ now h
    | ok bn => exact sync_install s _ now h

theorem sync_newBlockFilter (rpc : Rpc) (s : MgrState) (now : Nat)
    (h : registryTimerSync s) :
    registryTimerSync (FilterMgr.newBlockFilter rpc s now).state := by
  unfold FilterMgr.newBlockFilter
  dsimp only
  cases rpc.blockNumber with
  | error e => exact sync_install s _ now h
  | ok bn => exact sync_install s _ now h

theorem sync_newPendingTxFilter (rpc : Rpc) (s : MgrState) (now : Nat)
    (h : registryTimerSync s) :
    registryTimerSync (FilterMgr.newPendingTransactionFilter rpc s now).state := by
  unfold FilterMgr.newPendingTransactionFilter
  dsimp only
  cases rpc.blockNumber with
  | error e => exact sync_install s _ now h
  | ok bn => exact sync_install s _ now h

theorem sync_uninstall (s : MgrState) (fid : JsVal)
    (h : registryTimerSync s) :
    registryTimerSync (FilterMgr.uninstallFilter s fid).state := by
  intro k
  unfold FilterMgr.uninstallFilter
  dsimp only
  rw [mapGet_mapDelete]
  by_cases hk : hexToInt fid = k
  · subst hk
    simp only [if_pos rfl, Option.isSome_none]
    constructor
    · intro hc; cases hc
    · rintro ⟨d, hd⟩
      exact absurd hd (clearTimer_self_not_pending s.timers (hexToInt fid) d)
  · rw [if_neg hk, clearTimer_get_ne s.timers (hexToInt fid) k hk]
    exact h k

theorem sync_expire (s : MgrState) (fid : JsVal) (t : Nat)
    (h : registryTimerSync s) :
    registryTimerSync (expireFire s fid t) := by
  unfold expireFire
  cases hg : mapGet s.timers fid with
  | none => exact h
  | some st =>
    cases st with
    | pending d =>
      dsimp only
      by_cases hd : d ≤ t
      · rw [if_pos hd]
        intro k
        dsimp only
        rw [mapGet_mapDelete, mapGet_mapSet]
        by_cases hk : fid = k
        · simp [hk]
        · rw [if_neg hk, if_neg hk]
          exact h k
      · rw [if_neg hd]; exact h
    | cleared => exact h
    | fired => exact h

theorem sync_getChanges (rpc : Rpc) (s : MgrState) (fid : JsVal)
    (h : registryTimerSync s) :
    registryTimerSync (FilterMgr.getFilterChanges rpc s fid).state := by
  intro k
  rw [getFilterChanges_filters, getFilterChanges_timers]
  exact h k

theorem sync_getLogs (rpc : Rpc) (s : MgrState) (fid : JsVal)
    (h : registryTimerSync s) :
    registryTimerSync (FilterMgr.getFilterLogs rpc s fid).state := by
  intro k
  rw [getFilterLogs_state]
  exact h k

theorem sync_step (s : MgrState) (e : Event) (h : registryTimerSync s) :
    registryTimerSync (step s e) := by
  cases e with
  | evNewFilter rpc p now => exact sync_newFilter rpc s p now h
  | evNewBlockFilter rpc now => exact sync_newBlockFilter rpc s now h
  | evNewPendingTxFilter rpc now => exact sync_newPendingTxFilter rpc s now h
  | evUninstall fid => exact sync_uninstall s fid h
  | evGetChanges rpc fid => exact sync_getChanges rpc s fid h
  | evGetLogs rpc fid => exact sync_getLogs rpc s fid h
  | evExpire fid t => exact sync_expire s fid t h

theorem sync_init : registryTimerSync initState := by
  intro k
  simp [initState, mapGet]

theorem sync_foldl (es : List Event) :
    ∀ s, registryTimerSync s → registryTimerSync (es.foldl step s) := by
  induction es with
  | nil => intro s h; exact h
  | cons e es ih =>
    intro s h
    exact ih (step s e) (sync_step s e h)

/-- Decidable equality for `Except` results, so that concrete runs can be
checked by `decide`. -/
instance {e a : Type} [DecidableEq e] [DecidableEq a] : DecidableEq (Except e a) := fun x y =>
  match x, y with
  | .error u, .error v =>
    if h : u = v then .isTrue (by rw [h]) else .isFalse (fun hh => by cases hh; exact h rfl)
  | .ok u, .ok v =>
    if h : u = v then .isTrue (by rw [h]) else .isFalse (fun hh => by cases hh; exact h rfl)
  | .error _, .ok _ => .isFalse (fun hh => by cases hh)
  | .ok _, .error _ => .isFalse (fun hh => by cases hh)

/-- Dispatch of `getFilterChanges` for a registered log filter. -/
theorem getFilterChanges_log (rpc : Rpc) (s : MgrState) (fid : JsVal) (f : Filter)
    (hf : mapGet s.filters (hexToInt fid) = some f) (ht : f.type = .log) :
    FilterMgr.getFilterChanges rpc s fid = FilterMgr.getLogFilterChanges rpc s f.id := by
  unfold FilterMgr.getFilterChanges
  dsimp only
  rw [hf]
  dsimp only
  rw [ht]

/-- Dispatch of `getFilterChanges` for a registered block filter. -/
theorem getFilterChanges_block (rpc : Rpc) (s : MgrState) (fid : JsVal) (f : Filter)
    (hf : mapGet s.filters (hexToInt fid) = some f) (ht : f.type = .block) :
    FilterMgr.getFilterChanges rpc s fid =
      ⟨Except.map FilterMgr.ChangesResult.hashes
          (FilterMgr.getBlockFilterChanges rpc s f.id).res,
       (FilterMgr.getBlockFilterChanges rpc s f.id).state,
       (FilterMgr.getBlockFilterChanges rpc s f.id).calls⟩ := by
  unfold FilterMgr.getFilterChanges
  dsimp only
  rw [hf]
  dsimp only
  rw [ht]

/-- Dispatch of `getFilterChanges` for a registered pending-tx filter. -/
theorem getFilterChanges_tx (rpc : Rpc) (s : MgrState) (fid : JsVal) (f : Filter)
    (hf : mapGet s.filters (hexToInt fid) = some f) (ht : f.type = .tx) :
    FilterMgr.getFilterChanges rpc s fid =
      ⟨Except.map FilterMgr.ChangesResult.txs
          (FilterMgr.getTxFilterChanges rpc s f.id).res,
       (FilterMgr.getTxFilterChanges rpc s f.id).state,
       (FilterMgr.getTxFilterChanges rpc s f.id).calls⟩ := by
  unfold FilterMgr.getFilterChanges
  dsimp only
  rw [hf]
  dsimp only
  rw [ht]

/-! ### Concrete fixtures for counterexamples and witnesses -/

/-- An oracle whose head is block 100 (`0x64`) and whose block fetches all
succeed, each block's hash being the requested height value's string. -/
def okRpc : Rpc :=
  { blockNumber := .ok "0x64"
    blockByNumber := fun n => .ok { hash := jsToString n, transactions := [] }
    filterLogs := fun _ => .ok ["L"] }

/-- Same oracle after the chain advanced to head 103 (`0x67`). -/
def rpc103 : Rpc := { okRpc with blockNumber := .ok "0x67" }

/-- Head 103, but the fetch of block `0x65` fails at the transport. -/
def rpcFail : Rpc :=
  { blockNumber := .ok "0x67"
    blockByNumber := fun n =>
      if n = JsVal.vstr "0x65" then .error "BlockFetchError"
      else .ok { hash := jsToString n, transactions := [] }
    filterLogs := fun _ => .ok [] }

/-- Head 9 (`0x9`), block fetches succeed, log queries return one record. -/
def rpc9 : Rpc := { okRpc with blockNumber := .ok "0x9" }

/-- An oracle whose head fetch itself fails. -/
def failRpc : Rpc :=
  { blockNumber := .error "BlockFetchError: head fetch failed"
    blockByNumber := fun _ => .error "unreached"
    filterLogs := fun _ => .error "unreached" }

/-- A registered block filter with cursor at block 100 (`0x64`). -/
def blkState : MgrState :=
  { filters := [(.vnum 1, { type := .block, options := .strOpt "latest", id := .vnum 1 })]
    blockNumbers := [(.vnum 1, .vstr "0x64")]
    timers := [(.vnum 1, .pending 300000)] }

/-- Criteria of a log filter on the whole chain (`latest`/`latest`). -/
def logOptsLatest : LogOptions :=
  { fromBlock := .vstr "latest", toBlock := .vstr "latest", addresses := .nullA, topics := [] }

/-- A registered log filter with cursor at block 5 (`0x5`). -/
def logState : MgrState :=
  { filters := [(.vnum 1, { type := .log, options := .logOpts logOptsLatest, id := .vnum 1 })]
    blockNumbers := [(.vnum 1, .vstr "0x5")]
    timers := [(.vnum 1, .pending 300000)] }

/-- Criteria with a concrete numeric `toBlock` of 15 (user wrote `"0xf"`). -/
def logOpts15 : LogOptions :=
  { fromBlock := .vnum 0, toBlock := .vnum 15, addresses := .nullA, topics := [] }

/-- A registered log filter with `toBlock` 15 and cursor 16 (`0x10`): its
resolved range is inverted. -/
def state15 : MgrState :=
  { filters := [(.vnum 1, { type := .log, options := .logOpts logOpts15, id := .vnum 1 })]
    blockNumbers := [(.vnum 1, .vstr "0x10")]
    timers := [(.vnum 1, .pending 300000)] }

/-- Head 3 (`0x3`) — below the cursors of the log fixtures. -/
def rpc3 : Rpc := { okRpc with blockNumber := .ok "0x3" }

/-- A registered pending-transaction filter with cursor at block 100. -/
def txState : MgrState :=
  { filters := [(.vnum 1, { type := .tx, options := .strOpt "pending", id := .vnum 1 })]
    blockNumbers := [(.vnum 1, .vstr "0x64")]
    timers := [(.vnum 1, .pending 300000)] }

/-- Head 103, but the fetch of the *first* height in a `[100,103)` scan
(block `0x64`) fails at the transport. -/
def rpcFail64 : Rpc :=
  { blockNumber := .ok "0x67"
    blockByNumber := fun n =>
      if n = JsVal.vstr "0x64" then .error "BlockFetchError"
      else .ok { hash := jsToString n, transactions := [] }
    filterLogs := fun _ => .ok [] }

/-- Criteria as normalized from `fromBlock="earliest"`, `toBlock="latest"`. -/
def logOptsEarliest : LogOptions :=
  { fromBlock := .vnum 0, toBlock := .vstr "latest", addresses := .nullA, topics := [] }

/-- A registered `earliest..latest` log filter created when head was 50
(`0x32`), so its cursor is `0x32`. -/
def state50 : MgrState :=
  { filters := [(.vnum 1, { type := .log, options := .logOpts logOptsEarliest, id := .vnum 1 })]
    blockNumbers := [(.vnum 1, .vstr "0x32")]
    timers := [(.vnum 1, .pending 300000)] }

/-! ### Claims -/

/-- Claim C1, counterexample.  A `BlockFilter` created at head 100 and
polled at head 103 does **not** return the blocks at heights 101,102,103:
the code fetches and returns the blocks at heights 100,101,102 (hex
`0x64,0x65,0x66`; in this fixture each block's hash is its height string)
— height 103 (`0x67`) is never fetched while height 100 is, although the
cursor does advance to 103. -/
theorem C1_counterexample :
    (FilterMgr.getFilterChanges rpc103
        (FilterMgr.newBlockFilter okRpc initState 0).state (.vstr "0x1")).res
      = .ok (.hashes ["0x64", "0x65", "0x66"])
    ∧ (FilterMgr.getFilterChanges rpc103
        (FilterMgr.newBlockFilter okRpc initState 0).state (.vstr "0x1")).calls
      = [.getBlockNumber, .getBlockByNumber (.vstr "0x64"),
         .getBlockByNumber (.vstr "0x65"), .getBlockByNumber (.vstr "0x66")]
    ∧ mapGet (FilterMgr.getFilterChanges rpc103
        (FilterMgr.newBlockFilter okRpc initState 0).state (.vstr "0x1")).state.blockNumbers
        (.vnum 1)
      = some (.vstr "0x67") := by
  refine ⟨?_, ?_, ?_⟩ <;> decide

/-- Claim C1 (corrected): for a `BlockFilter` whose cursor parses to `c`
and head parses to `h` with `h > c`, a successful `getFilterChanges`
fetches exactly the blocks at heights `c .. h-1` (one fetch per height, in
ascending order), returns their hashes in that order, and sets the cursor
to the head — the range is `[cursor, head)`, not `(cursor, head]`. -/
theorem C1_amended (rpc : Rpc) (s : MgrState) (fid : JsVal) (f : Filter)
    (cur hs : String) (c h : Int) (B : JsVal → Block)
    (hf : mapGet s.filters (hexToInt fid) = some f)
    (ht : f.type = .block)
    (hcur : mapGet s.blockNumbers f.id = some (.vstr cur))
    (hne : cur ≠ "")
    (hc : hexToInt (.vstr cur) = .vnum c)
    (hbn : rpc.blockNumber = .ok hs)
    (hh : hexToInt (.vstr hs) = .vnum h)
    (hlt : c < h)
    (hB : ∀ n, rpc.blockByNumber n = .ok (B n)) :
    (FilterMgr.getFilterChanges rpc s fid).res
        = .ok (.hashes ((intRange c h).map (fun n => (B (intToHex (.vnum n))).hash)))
    ∧ mapGet (FilterMgr.getFilterChanges rpc s fid).state.blockNumbers f.id
        = some (.vstr hs)
    ∧ (FilterMgr.getFilterChanges rpc s fid).calls
        = .getBlockNumber ::
            (intRange c h).map (fun n => .getBlockByNumber (intToHex (.vnum n))) := by
  have hadv := getBlocksForFilter_advance rpc s f.id cur hs c h hcur hne hc hbn hh hlt
  rw [getFilterChanges_block rpc s fid f hf ht]
  unfold FilterMgr.getBlockFilterChanges
  rw [hadv]
  rw [allBlocks_ok rpc B hB]
  refine ⟨?_, ?_, ?_⟩
  · simp [Except.map, List.map_map, Function.comp]
  · dsimp only
    rw [mapGet_mapSet]
    simp
  · simp [List.map_map, Function.comp]

/-- Claim C1, witness at the concrete scenario (cursor `0x64` = 100, head
`0x67` = 103): the hashes of blocks 100,101,102 come back in order and the
cursor becomes `0x67`. -/
theorem C1_amended_witness :
    (FilterMgr.getFilterChanges rpc103 blkState (.vstr "0x1")).res
        = .ok (.hashes ((intRange 100 103).map
            (fun n => ((fun m => Block.mk (jsToString m) []) (intToHex (.vnum n))).hash)))
    ∧ mapGet (FilterMgr.getFilterChanges rpc103 blkState
        (.vstr "0x1")).state.blockNumbers (.vnum 1) = some (.vstr "0x67")
    ∧ (FilterMgr.getFilterChanges rpc103 blkState (.vstr "0x1")).calls
        = .getBlockNumber ::
            (intRange 100 103).map (fun n => .getBlockByNumber (intToHex (.vnum n))) :=
  C1_amended rpc103 blkState (.vstr "0x1")
    { type := .block, options := .strOpt "latest", id := .vnum 1 }
    "0x64" "0x67" 100 103 (fun m => Block.mk (jsToString m) [])
    (by decide) rfl (by decide) (by decide) (by decide) rfl (by decide) (by decide)
    (fun n => rfl)

/-- Claim C2, counterexample.  A `LogFilter` with cursor 5 (`0x5`) and
`toBlock='latest'` polled at head 9: the resolved `toBlock` (9) is well
above the cursor, yet after a successful `getFilterChanges` the stored
cursor is still `0x5` (the claim says it becomes the resolved `toBlock`),
and an immediately repeated call returns the same non-empty log list
instead of the empty result the claim predicts. -/
theorem C2_counterexample :
    mapGet (FilterMgr.getFilterChanges rpc9 logState (.vstr "0x1")).state.blockNumbers
        (.vnum 1) = some (.vstr "0x5")
    ∧ (FilterMgr.getFilterChanges rpc9
          (FilterMgr.getFilterChanges rpc9 logState (.vstr "0x1")).state (.vstr "0x1")).res
        = .ok (.logs ["L"])
    ∧ (FilterMgr.getFilterChanges rpc9 logState (.vstr "0x1")).res = .ok (.logs ["L"]) := by
  refine ⟨?_, ?_, ?_⟩ <;> decide

/-- Claim C2 (corrected): `getFilterChanges` on a `LogFilter` never
advances the cursor — it leaves the whole manager state unchanged — so an
immediately repeated call with the same oracle answers returns the *same*
result as the first (not an empty one), and the cursor after the second
call equals the cursor after the first only because both equal the cursor
before the first. -/
theorem C2_amended (rpc : Rpc) (s : MgrState) (fid : JsVal) (f : Filter)
    (hf : mapGet s.filters (hexToInt fid) = some f) (ht : f.type = .log) :
    (FilterMgr.getFilterChanges rpc s fid).state = s
    ∧ FilterMgr.getFilterChanges rpc
        ((FilterMgr.getFilterChanges rpc s fid).state) fid
      = FilterMgr.getFilterChanges rpc s fid := by
  have h1 : (FilterMgr.getFilterChanges rpc s fid).state = s := by
    rw [getFilterChanges_log rpc s fid f hf ht]
    exact getLogFilterChanges_state rpc s f.id
  exact ⟨h1, by rw [h1]⟩

/-- Claim C2, witness at the concrete log-filter fixture. -/
theorem C2_amended_witness :
    (FilterMgr.getFilterChanges rpc9 logState (.vstr "0x1")).state = logState
    ∧ FilterMgr.getFilterChanges rpc9
        ((FilterMgr.getFilterChanges rpc9 logState (.vstr "0x1")).state) (.vstr "0x1")
      = FilterMgr.getFilterChanges rpc9 logState (.vstr "0x1") :=
  C2_amended rpc9 logState (.vstr "0x1")
    { type := .log, options := .logOpts logOptsLatest, id := .vnum 1 } (by decide) rfl

/-- Claim C3, counterexample.  A `BlockFilter` with cursor 100 polled at
head 103 against a transport that fails the fetch of block `0x65`: the
call rejects, but the cursor has already been advanced to `0x67` (103) —
it is *not* left at its pre-call value `0x64`, so a retry scans `[103, …)`
and never re-fetches the failed range. -/
theorem C3_counterexample :
    (FilterMgr.getFilterChanges rpcFail blkState (.vstr "0x1")).res = .error "BlockFetchError"
    ∧ mapGet (FilterMgr.getFilterChanges rpcFail blkState
        (.vstr "0x1")).state.blockNumbers (.vnum 1) = some (.vstr "0x67") := by
  exact ⟨by decide, by decide⟩

/-- Claim C3 (corrected): on a Block/PendingTx range scan with parsed
cursor `c` strictly below the parsed head `h`, the cursor is advanced to
the head string *before* the per-height fetches, so it ends at the head
regardless of fetch outcomes; if the fetch of **any** height in `[c, h)`
fails, the whole `getFilterChanges` call fails while the cursor is
already advanced — a retry does not re-scan the failed range. -/
theorem C3_amended (rpc : Rpc) (s : MgrState) (fid : JsVal) (f : Filter)
    (cur hs : String) (c h : Int)
    (hf : mapGet s.filters (hexToInt fid) = some f)
    (ht : f.type = .block ∨ f.type = .tx)
    (hcur : mapGet s.blockNumbers f.id = some (.vstr cur))
    (hne : cur ≠ "")
    (hc : hexToInt (.vstr cur) = .vnum c)
    (hbn : rpc.blockNumber = .ok hs)
    (hh : hexToInt (.vstr hs) = .vnum h)
    (hlt : c < h) :
    mapGet (FilterMgr.getFilterChanges rpc s fid).state.blockNumbers f.id
        = some (.vstr hs)
    ∧ ∀ (k : Int) (e : String), c ≤ k → k < h →
        rpc.blockByNumber (intToHex (.vnum k)) = .error e →
        ∃ e2, (FilterMgr.getFilterChanges rpc s fid).res = .error e2 := by
  have hadv := getBlocksForFilter_advance rpc s f.id cur hs c h hcur hne hc hbn hh hlt
  cases ht with
  | inl htb =>
    rw [getFilterChanges_block rpc s fid f hf htb]
    unfold FilterMgr.getBlockFilterChanges
    rw [hadv]
    constructor
    · dsimp only
      rw [mapGet_mapSet]
      simp
    · intro k e hk1 hk2 he
      have hmem : intToHex (.vnum k) ∈ (intRange c h).map (fun n => intToHex (.vnum n)) :=
        List.mem_map.mpr ⟨k, mem_intRange c h k hk1 hk2, rfl⟩
      obtain ⟨e2, he2⟩ := allBlocks_error rpc _ _ e hmem he
      exact ⟨e2, by dsimp only; rw [he2]; rfl⟩
  | inr htx =>
    rw [getFilterChanges_tx rpc s fid f hf htx]
    unfold FilterMgr.getTxFilterChanges
    rw [hadv]
    constructor
    · dsimp only
      rw [mapGet_mapSet]
      simp
    · intro k e hk1 hk2 he
      have hmem : intToHex (.vnum k) ∈ (intRange c h).map (fun n => intToHex (.vnum n)) :=
        List.mem_map.mpr ⟨k, mem_intRange c h k hk1 hk2, rfl⟩
      obtain ⟨e2, he2⟩ := allBlocks_error rpc _ _ e hmem he
      exact ⟨e2, by dsimp only; rw [he2]; rfl⟩

/-- Claim C3, witness: a mid-range fetch failure (height 101, block
`0x65`) for a block filter and for a pending-tx filter — in both cases the
call errors while the cursor is already `0x67`. -/
theorem C3_amended_witness :
    (mapGet (FilterMgr.getFilterChanges rpcFail blkState
        (.vstr "0x1")).state.blockNumbers (.vnum 1) = some (.vstr "0x67")
      ∧ ∃ e2, (FilterMgr.getFilterChanges rpcFail blkState (.vstr "0x1")).res = .error e2)
    ∧ (mapGet (FilterMgr.getFilterChanges rpcFail txState
        (.vstr "0x1")).state.blockNumbers (.vnum 1) = some (.vstr "0x67")
      ∧ ∃ e2, (FilterMgr.getFilterChanges rpcFail txState (.vstr "0x1")).res = .error e2) :=
  ⟨⟨(C3_amended rpcFail blkState (.vstr "0x1")
      { type := .block, options := .strOpt "latest", id := .vnum 1 }
      "0x64" "0x67" 100 103
      (by decide) (Or.inl rfl) (by decide) (by decide) (by decide) rfl (by decide)
      (by decide)).1,
    (C3_amended rpcFail blkState (.vstr "0x1")
      { type := .block, options := .strOpt "latest", id := .vnum 1 }
      "0x64" "0x67" 100 103
      (by decide) (Or.inl rfl) (by decide) (by decide) (by decide) rfl (by decide)
      (by decide)).2 101 "BlockFetchError" (by decide) (by decide) (by decide)⟩,
   ⟨(C3_amended rpcFail txState (.vstr "0x1")
      { type := .tx, options := .strOpt "pending", id := .vnum 1 }
      "0x64" "0x67" 100 103
      (by decide) (Or.inr rfl) (by decide) (by decide) (by decide) rfl (by decide)
      (by decide)).1,
    (C3_amended rpcFail txState (.vstr "0x1")
      { type := .tx, options := .strOpt "pending", id := .vnum 1 }
      "0x64" "0x67" 100 103
      (by decide) (Or.inr rfl) (by decide) (by decide) (by decide) rfl (by decide)
      (by decide)).2 101 "BlockFetchError" (by decide) (by decide) (by decide)⟩⟩

/-- Claim C4: the code computes `const count = this.filters.keys.length`,
which is the arity of the un-called `Map.prototype.keys` method — always
`0` — so every installed filter gets id `count + 1 = 1`: here two
consecutive `newBlockFilter` calls both return id `0x1` and the second
silently overwrites the first (one registry entry remains), where the
claim (and the spec's `previousCount + 1`) requires the second id to be
`2` and live ids to be pairwise distinct. -/
theorem C4_eval :
    (FilterMgr.newBlockFilter okRpc initState 0).res = .ok (.vstr "0x1")
    ∧ (FilterMgr.newBlockFilter okRpc
        (FilterMgr.newBlockFilter okRpc initState 0).state 1).res = .ok (.vstr "0x1")
    ∧ (FilterMgr.newBlockFilter okRpc
        (FilterMgr.newBlockFilter okRpc initState 0).state 1).state.filters.length = 1 := by
  refine ⟨?_, ?_, ?_⟩ <;> decide

/-- Claim C5, counterexample.  Create a block filter, then uninstall it:
the registry entry is gone but the `timers` map still holds an entry for
id 1 (now a cleared handle) — deletion does **not** remove the timer
entry together with the registry entry, so the two collections are not in
1:1 correspondence as sets of entries. -/
theorem C5_counterexample :
    mapGet (FilterMgr.uninstallFilter
        (FilterMgr.newBlockFilter okRpc initState 0).state (.vstr "0x1")).state.filters
        (.vnum 1) = none
    ∧ mapGet (FilterMgr.uninstallFilter
        (FilterMgr.newBlockFilter okRpc initState 0).state (.vstr "0x1")).state.timers
        (.vnum 1) = some TimerStatus.cleared := by
  exact ⟨by decide, by decide⟩

/-- Claim C5 (corrected): after any history of operations from a fresh
manager, the ids in the registry are exactly the ids whose `timers` entry
is a still-*pending* timer; but deletion (uninstall or expiry) only clears
or fires the timer, leaving a stale entry in the `timers` map rather than
removing it. -/
theorem C5_amended : ∀ es : List Event, registryTimerSync (run es) :=
  fun es => sync_foldl es initState sync_init

/-- Claim C6, counterexample.  Create a block filter at time 0 (timer
deadline `300000`), poll it successfully: the timer map is unchanged — the
poll does *not* re-arm the timer to a full window from the poll — and the
creation-time timer can then fire at `300000`, deleting the filter, even
though it was just polled. -/
theorem C6_counterexample :
    (FilterMgr.getFilterChanges okRpc
        (FilterMgr.newBlockFilter okRpc initState 0).state (.vstr "0x1")).res
      = .ok (.hashes [])
    ∧ (FilterMgr.getFilterChanges okRpc
        (FilterMgr.newBlockFilter okRpc initState 0).state (.vstr "0x1")).state.timers
      = [(.vnum 1, .pending 300000)]
    ∧ mapGet (expireFire
        (FilterMgr.getFilterChanges okRpc
          (FilterMgr.newBlockFilter okRpc initState 0).state (.vstr "0x1")).state
        (.vnum 1) 300000).filters (.vnum 1) = none := by
  refine ⟨?_, ?_, ?_⟩ <;> decide

/-- Claim C6 (corrected): `getFilterChanges` never touches the timer map
(successful or not) — the expiry timer is armed only at creation
(`_setupTimer` is called from `_installFilter` alone), so a filter becomes
expirable `timeoutInterval` after its creation regardless of how recently
it was polled. -/
theorem C6_amended (rpc : Rpc) (s : MgrState) (fid : JsVal) :
    (FilterMgr.getFilterChanges rpc s fid).state.timers = s.timers :=
  getFilterChanges_timers rpc s fid

/-- Claim C7, counterexample.  `newFilter` with `fromBlock="0xzz"` does
*not* fail: since the string starts with `0x`, `_normalizeFilterBlock`
returns `parseInt("0xzz",16) = NaN` instead of throwing, the filter is
registered (registry size 1, stored `fromBlock = NaN`), its timer is
armed, and the call resolves with id `0x1`. -/
theorem C7_counterexample :
    (FilterMgr.newFilter okRpc initState
        { fromBlock := .vstr "0xzz", toBlock := .vundef, address := .undefP, topics := .undefT }
        0).res = .ok (.vstr "0x1")
    ∧ (FilterMgr.newFilter okRpc initState
        { fromBlock := .vstr "0xzz", toBlock := .vundef, address := .undefP, topics := .undefT }
        0).state.filters.length = 1
    ∧ mapGet (FilterMgr.newFilter okRpc initState
        { fromBlock := .vstr "0xzz", toBlock := .vundef, address := .undefP, topics := .undefT }
        0).state.timers (.vnum 1) = some (.pending 300000)
    ∧ mapGet (FilterMgr.newFilter okRpc initState
        { fromBlock := .vstr "0xzz", toBlock := .vundef, address := .undefP, topics := .undefT }
        0).state.filters (.vnum 1)
      = some { type := .log,
               options := .logOpts
                 { fromBlock := .vnan, toBlock := .vstr "latest",
                   addresses := .nullA, topics := [] },
               id := .vnum 1 } := by
  refine ⟨?_, ?_, ?_, ?_⟩ <;> decide

/-- A non-sentinel block-height string without a `0x` prefix makes
`_normalizeFilterBlock` throw `Invalid block option`. -/
theorem normalizeFilterBlock_bad (bs : String)
    (h1 : bs ≠ "latest") (h2 : bs ≠ "pending") (h3 : bs ≠ "earliest")
    (h4 : (match bs.toList with | '0' :: 'x' :: _ => true | _ => false) = false) :
    FilterMgr.normalizeFilterBlock (.vstr bs)
      = .error ("Invalid block option: " ++ bs) := by
  unfold FilterMgr.normalizeFilterBlock
  rw [if_neg (by simp [h1, h2]), if_neg (by simp [h3])]
  dsimp only
  rw [if_neg (by simp only [Bool.not_eq_true]; exact h4)]

/-- Claim C7 (corrected): only a block-height string that is not one of
the sentinels and does **not** start with `0x` makes `newFilter` throw
`Invalid block option` — whether it stands in `fromBlock` or (with any
valid `fromBlock`) in `toBlock` — and that throw happens before any state
is touched, so nothing is registered, no cursor stored, no timer armed.
A `0x`-prefixed unparsable string such as `"0xzz"` instead normalizes to
`NaN` and the filter is registered normally. -/
theorem C7_amended :
    (∀ (rpc : Rpc) (s : MgrState) (bs : String) (tb : JsVal)
        (ap : AddrParam) (tp : TopicsVal) (now : Nat),
      bs ≠ "latest" → bs ≠ "pending" → bs ≠ "earliest" →
      (match bs.toList with | '0' :: 'x' :: _ => true | _ => false) = false →
      FilterMgr.newFilter rpc s
          { fromBlock := .vstr bs, toBlock := tb, address := ap, topics := tp } now
        = ⟨.error ("Invalid block option: " ++ bs), s, []⟩)
    ∧ (∀ (rpc : Rpc) (s : MgrState) (fb v : JsVal) (ts : String)
        (ap : AddrParam) (tp : TopicsVal) (now : Nat),
      FilterMgr.normalizeFilterBlock fb = .ok v →
      ts ≠ "latest" → ts ≠ "pending" → ts ≠ "earliest" →
      (match ts.toList with | '0' :: 'x' :: _ => true | _ => false) = false →
      FilterMgr.newFilter rpc s
          { fromBlock := fb, toBlock := .vstr ts, address := ap, topics := tp } now
        = ⟨.error ("Invalid block option: " ++ ts), s, []⟩) := by
  constructor
  · intro rpc s bs tb ap tp now h1 h2 h3 h4
    have hW : FilterMgr.normalizeFilter
        { fromBlock := .vstr bs, toBlock := tb, address := ap, topics := tp }
        = .error ("Invalid block option: " ++ bs) := by
      unfold FilterMgr.normalizeFilter
      rw [normalizeFilterBlock_bad bs h1 h2 h3 h4]
      rfl
    unfold FilterMgr.newFilter
    rw [hW]
  · intro rpc s fb v ts ap tp now hfb h1 h2 h3 h4
    have hW : FilterMgr.normalizeFilter
        { fromBlock := fb, toBlock := .vstr ts, address := ap, topics := tp }
        = .error ("Invalid block option: " ++ ts) := by
      unfold FilterMgr.normalizeFilter
      rw [hfb]
      show FilterMgr.normalizeFilterBlock (.vstr ts) >>= _ = _
      rw [normalizeFilterBlock_bad ts h1 h2 h3 h4]
      rfl
    unfold FilterMgr.newFilter
    rw [hW]

/-- Claim C7, witness: `fromBlock="zz"`, and `fromBlock` absent (valid)
with `toBlock="zz"` — both calls throw and the state is untouched. -/
theorem C7_amended_witness :
    FilterMgr.newFilter okRpc initState
        { fromBlock := .vstr "zz", toBlock := .vundef, address := .undefP, topics := .undefT } 0
      = ⟨.error ("Invalid block option: " ++ "zz"), initState, []⟩
    ∧ FilterMgr.newFilter okRpc initState
        { fromBlock := .vundef, toBlock := .vstr "zz", address := .undefP, topics := .undefT } 0
      = ⟨.error ("Invalid block option: " ++ "zz"), initState, []⟩ :=
  ⟨C7_amended.1 okRpc initState "zz" .vundef .undefP .undefT 0
      (by decide) (by decide) (by decide) (by decide),
   C7_amended.2 okRpc initState .vundef (.vstr "latest") "zz" .undefP .undefT 0
      (by decide) (by decide) (by decide) (by decide) (by decide)⟩

/-- Claim C8, counterexample.  A `LogFilter` whose stored cursor `0x10`
parses to 16 and whose stored (already normalized) `toBlock` is the number
15 — an inverted resolved range, 15 < 16 — still issues a log query with a
non-empty result: the emptiness test compares `hexToInt` re-readings, and
`hexToInt(15) = parseInt("15",16) = 21 ≥ 16`, so the inverted range is not
detected and a fetch is performed where the claim requires zero fetches
and an empty result. -/
theorem C8_counterexample :
    hexToInt (.vstr "0x10") = .vnum 16
    ∧ logOpts15.toBlock = .vnum 15
    ∧ hexToInt (.vnum 15) = .vnum 21
    ∧ (FilterMgr.getFilterChanges rpc9 state15 (.vstr "0x1")).calls
      = [.getBlockNumber,
         .getFilterLogs
           { fromBlock := .vstr "0x10", toBlock := .vnum 15,
             addressesKey := .nullA, topicsKey := .listT [], addressKey := .undefA }]
    ∧ (FilterMgr.getFilterChanges rpc9 state15 (.vstr "0x1")).res = .ok (.logs ["L"]) := by
  refine ⟨?_, ?_, ?_, ?_, ?_⟩ <;> decide

/-- Claim C8 (corrected): (block/tx part, as claimed) when the parsed
head does not exceed the parsed cursor, `getFilterChanges` on a
Block/PendingTx filter returns an empty list, performs no block fetch,
and leaves the state unchanged; (log part, corrected) the empty/no-query
short-circuit fires **exactly** when `hexToInt(cursor) > hexToInt(resolved
toBlock)` — a comparison of `hexToInt` re-readings of the stored values,
not of the true resolved heights: when it holds the result is empty, no
log query is issued and the state is unchanged, and when it fails the log
query *is* issued over `{...options, fromBlock: cursor, toBlock}`. -/
theorem C8_amended :
    (∀ (rpc : Rpc) (s : MgrState) (fid : JsVal) (f : Filter) (cur hs : String) (c h : Int),
      mapGet s.filters (hexToInt fid) = some f → f.type = .block ∨ f.type = .tx →
      mapGet s.blockNumbers f.id = some (.vstr cur) → cur ≠ "" →
      hexToInt (.vstr cur) = .vnum c → rpc.blockNumber = .ok hs →
      hexToInt (.vstr hs) = .vnum h → h ≤ c →
      FilterMgr.getFilterChanges rpc s fid
        = ⟨.ok (match f.type with
                | .block => FilterMgr.ChangesResult.hashes []
                | .tx => FilterMgr.ChangesResult.txs []
                | .log => FilterMgr.ChangesResult.logs []),
           s, [.getBlockNumber]⟩)
    ∧ (∀ (rpc : Rpc) (s : MgrState) (fid : JsVal) (f : Filter) (opts : LogOptions) (hs : String),
      mapGet s.filters (hexToInt fid) = some f → f.type = .log →
      f.options = .logOpts opts →
      mapGet s.filters f.id = some f →
      truthy ((mapGet s.blockNumbers f.id).getD .vundef) = true →
      rpc.blockNumber = .ok hs →
      jsGT (hexToInt ((mapGet s.blockNumbers f.id).getD .vundef))
          (hexToInt (if opts.toBlock = JsVal.vstr "latest" then .vstr hs else opts.toBlock))
        = true →
      FilterMgr.getFilterChanges rpc s fid
        = ⟨.ok (.logs []), s, [.getBlockNumber]⟩)
    ∧ (∀ (rpc : Rpc) (s : MgrState) (fid : JsVal) (f : Filter) (opts : LogOptions) (hs : String),
      mapGet s.filters (hexToInt fid) = some f → f.type = .log →
      f.options = .logOpts opts →
      mapGet s.filters f.id = some f →
      truthy ((mapGet s.blockNumbers f.id).getD .vundef) = true →
      rpc.blockNumber = .ok hs →
      jsGT (hexToInt ((mapGet s.blockNumbers f.id).getD .vundef))
          (hexToInt (if opts.toBlock = JsVal.vstr "latest" then .vstr hs else opts.toBlock))
        = false →
      FilterMgr.getFilterChanges rpc s fid
        = ⟨Except.map FilterMgr.ChangesResult.logs
            (rpc.filterLogs
              { fromBlock := (mapGet s.blockNumbers f.id).getD .vundef
                toBlock := if opts.toBlock = JsVal.vstr "latest" then .vstr hs else opts.toBlock
                addressesKey := opts.addresses
                topicsKey := .listT opts.topics
                addressKey := .undefA }),
           s,
           [.getBlockNumber,
            .getFilterLogs
              { fromBlock := (mapGet s.blockNumbers f.id).getD .vundef
                toBlock := if opts.toBlock = JsVal.vstr "latest" then .vstr hs else opts.toBlock
                addressesKey := opts.addresses
                topicsKey := .listT opts.topics
                addressKey := .undefA }]⟩) := by
  refine ⟨?_, ?_, ?_⟩
  · intro rpc s fid f cur hs c h hf ht hcur hne hc hbn hh hle
    cases ht with
    | inl htb =>
      rw [getFilterChanges_block rpc s fid f hf htb, htb]
      unfold FilterMgr.getBlockFilterChanges
      rw [getBlocksForFilter_empty rpc s f.id cur hs c h hcur hne hc hbn hh hle]
      rfl
    | inr htx =>
      rw [getFilterChanges_tx rpc s fid f hf htx, htx]
      unfold FilterMgr.getTxFilterChanges
      rw [getBlocksForFilter_empty rpc s f.id cur hs c h hcur hne hc hbn hh hle]
      rfl
  · intro rpc s fid f opts hs hf ht hopts hf2 htr hbn hgt
    rw [getFilterChanges_log rpc s fid f hf ht]
    unfold FilterMgr.getLogFilterChanges
    rw [hf2]
    dsimp only
    rw [hopts]
    rw [if_neg (by simp [FilterOptions.isTruthy, htr])]
    rw [hbn]
    dsimp only [FilterOptions.getToBlock]
    rw [if_pos hgt]
  · intro rpc s fid f opts hs hf ht hopts hf2 htr hbn hgt
    rw [getFilterChanges_log rpc s fid f hf ht]
    unfold FilterMgr.getLogFilterChanges
    rw [hf2]
    dsimp only
    rw [hopts]
    rw [if_neg (by simp [FilterOptions.isTruthy, htr])]
    rw [hbn]
    dsimp only [FilterOptions.getToBlock, FilterOptions.getAddresses, FilterOptions.getTopics]
    rw [if_neg (by simp [hgt])]
    cases hq : rpc.filterLogs
        { fromBlock := (mapGet s.blockNumbers f.id).getD .vundef
          toBlock := if opts.toBlock = JsVal.vstr "latest" then .vstr hs else opts.toBlock
          addressesKey := opts.addresses
          topicsKey := .listT opts.topics
          addressKey := .undefA } with
    | error e => simp [hq, Except.map]
    | ok ls => simp [hq, Except.map]

/-- Claim C8, witness: empty block scan at head = cursor = 100, empty tx
scan likewise, an inverted log range (cursor 5, head 3) that short-circuits
with no query, and a normal log range (cursor 5, head 9) where the query
is issued. -/
theorem C8_amended_witness :
    FilterMgr.getFilterChanges okRpc blkState (.vstr "0x1")
      = ⟨.ok (.hashes []), blkState, [.getBlockNumber]⟩
    ∧ FilterMgr.getFilterChanges okRpc txState (.vstr "0x1")
      = ⟨.ok (.txs []), txState, [.getBlockNumber]⟩
    ∧ FilterMgr.getFilterChanges rpc3 logState (.vstr "0x1")
      = ⟨.ok (.logs []), logState, [.getBlockNumber]⟩
    ∧ FilterMgr.getFilterChanges rpc9 logState (.vstr "0x1")
      = ⟨Except.map FilterMgr.ChangesResult.logs
          (rpc9.filterLogs
            { fromBlock := (mapGet logState.blockNumbers (.vnum 1)).getD .vundef
              toBlock := if logOptsLatest.toBlock = JsVal.vstr "latest" then .vstr "0x9"
                         else logOptsLatest.toBlock
              addressesKey := logOptsLatest.addresses
              topicsKey := .listT logOptsLatest.topics
              addressKey := .undefA }),
         logState,
         [.getBlockNumber,
          .getFilterLogs
            { fromBlock := (mapGet logState.blockNumbers (.vnum 1)).getD .vundef
              toBlock := if logOptsLatest.toBlock = JsVal.vstr "latest" then .vstr "0x9"
                         else logOptsLatest.toBlock
              addressesKey := logOptsLatest.addresses
              topicsKey := .listT logOptsLatest.topics
              addressKey := .undefA }]⟩ :=
  ⟨C8_amended.1 okRpc blkState (.vstr "0x1")
      { type := .block, options := .strOpt "latest", id := .vnum 1 }
      "0x64" "0x64" 100 100
      (by decide) (Or.inl rfl) (by decide) (by decide) (by decide) rfl (by decide)
      (by decide),
   C8_amended.1 okRpc txState (.vstr "0x1")
      { type := .tx, options := .strOpt "pending", id := .vnum 1 }
      "0x64" "0x64" 100 100
      (by decide) (Or.inr rfl) (by decide) (by decide) (by decide) rfl (by decide)
      (by decide),
   C8_amended.2.1 rpc3 logState (.vstr "0x1")
      { type := .log, options := .logOpts logOptsLatest, id := .vnum 1 }
      logOptsLatest "0x3"
      (by decide) rfl rfl (by decide) (by decide) rfl (by decide),
   C8_amended.2.2 rpc9 logState (.vstr "0x1")
      { type := .log, options := .logOpts logOptsLatest, id := .vnum 1 }
      logOptsLatest "0x9"
      (by decide) rfl rfl (by decide) (by decide) rfl (by decide)⟩

/-- Claim C9, counterexample.  `getFilterLogs` on the stored
`earliest..latest` filter (normalized `fromBlock = 0`, `toBlock =
'latest'`) with current head 9: the single RPC call is the log query
itself — no head fetch happens, so `'latest'` is *not* resolved to a
concrete height at query time but passed through literally, and the height
0 is passed as the number `0`, not as a hex string (the `intToHex`
falsy-zero slip). -/
theorem C9_counterexample :
    (FilterMgr.getFilterLogs rpc9 state50 (.vstr "0x1")).calls
      = [.getFilterLogs
          { fromBlock := .vnum 0, toBlock := .vstr "latest",
            addressesKey := .undefA, topicsKey := .listT [], addressKey := .undefA }]
    ∧ (FilterMgr.getFilterLogs rpc9 state50 (.vstr "0x1")).res = .ok ["L"] := by
  exact ⟨by decide, by decide⟩

/-- Claim C9 (corrected): `getFilterLogs` replays exactly the stored
criteria through `_normalizeParams`, independent of the poll cursor (the
`blockNumbers` map is never consulted) and without any head fetch — so
`'latest'` is passed through as the literal sentinel (its resolution is
delegated to the node) and a zero height is passed as the number `0`
rather than hex-encoded; an unknown id fails with the `no filter found`
rejection and no RPC call. -/
theorem C9_amended (rpc : Rpc) (s : MgrState) (fid : JsVal) :
    (∀ f, mapGet s.filters (hexToInt fid) = some f →
      FilterMgr.getFilterLogs rpc s fid =
        ⟨rpc.filterLogs (FilterMgr.normalizeParams f.options), s,
         [.getFilterLogs (FilterMgr.normalizeParams f.options)]⟩)
    ∧ (mapGet s.filters (hexToInt fid) = none →
      FilterMgr.getFilterLogs rpc s fid = ⟨.error "no filter found", s, []⟩) := by
  constructor
  · intro f hf
    unfold FilterMgr.getFilterLogs
    rw [hf]
    dsimp only
    cases hq : rpc.filterLogs (FilterMgr.normalizeParams f.options) <;> simp [hq]
  · intro hn
    unfold FilterMgr.getFilterLogs
    rw [hn]

/-- Claim C9, witness: the registered `earliest..latest` filter and an
unknown id on a fresh manager. -/
theorem C9_amended_witness :
    FilterMgr.getFilterLogs rpc9 state50 (.vstr "0x1")
      = ⟨rpc9.filterLogs (FilterMgr.normalizeParams (.logOpts logOptsEarliest)), state50,
         [.getFilterLogs (FilterMgr.normalizeParams (.logOpts logOptsEarliest))]⟩
    ∧ FilterMgr.getFilterLogs rpc9 initState (.vstr "0x1")
      = ⟨.error "no filter found", initState, []⟩ :=
  ⟨(C9_amended rpc9 state50 (.vstr "0x1")).1
      { type := .log, options := .logOpts logOptsEarliest, id := .vnum 1 } (by decide),
   (C9_amended rpc9 initState (.vstr "0x1")).2 (by decide)⟩

/-- Claim C10 (confirmed): for each of the three creation paths
(`newFilter`, `newBlockFilter`, `newPendingTransactionFilter`), when the
initial head fetch fails the returned promise rejects with that error, but
the filter has already been installed under id 1 with a pending timer
armed at `now + timeoutInterval`, while no cursor entry was stored — and
any later `getFilterChanges` on that id rejects for lack of a cursor. -/
theorem C10_holds :
    (∀ (rpc : Rpc) (s : MgrState) (p : RawParams) (now : Nat) (e : String)
        (opts : LogOptions),
      FilterMgr.normalizeFilter p = .ok opts →
      rpc.blockNumber = .error e →
      mapGet s.blockNumbers (.vnum 1) = none →
      (FilterMgr.newFilter rpc s p now).res = .error e
      ∧ mapGet (FilterMgr.newFilter rpc s p now).state.filters (.vnum 1)
          = some { type := .log, options := .logOpts opts, id := .vnum 1 }
      ∧ mapGet (FilterMgr.newFilter rpc s p now).state.timers (.vnum 1)
          = some (.pending (now + timeoutInterval))
      ∧ mapGet (FilterMgr.newFilter rpc s p now).state.blockNumbers (.vnum 1) = none
      ∧ ∀ rpc2 : Rpc,
          (FilterMgr.getFilterChanges rpc2
              (FilterMgr.newFilter rpc s p now).state (.vstr "0x1")).res
            = .error "_getLogFilterChanges: no filter found")
    ∧ (∀ (rpc : Rpc) (s : MgrState) (now : Nat) (e : String),
      rpc.blockNumber = .error e →
      mapGet s.blockNumbers (.vnum 1) = none →
      (FilterMgr.newBlockFilter rpc s now).res = .error e
      ∧ mapGet (FilterMgr.newBlockFilter rpc s now).state.filters (.vnum 1)
          = some { type := .block, options := .strOpt "latest", id := .vnum 1 }
      ∧ mapGet (FilterMgr.newBlockFilter rpc s now).state.timers (.vnum 1)
          = some (.pending (now + timeoutInterval))
      ∧ mapGet (FilterMgr.newBlockFilter rpc s now).state.blockNumbers (.vnum 1) = none
      ∧ ∀ rpc2 : Rpc,
          (FilterMgr.getFilterChanges rpc2
              (FilterMgr.newBlockFilter rpc s now).state (.vstr "0x1")).res
            = .error "no filter found")
    ∧ (∀ (rpc : Rpc) (s : MgrState) (now : Nat) (e : String),
      rpc.blockNumber = .error e →
      mapGet s.blockNumbers (.vnum 1) = none →
      (FilterMgr.newPendingTransactionFilter rpc s now).res = .error e
      ∧ mapGet (FilterMgr.newPendingTransactionFilter rpc s now).state.filters (.vnum 1)
          = some { type := .tx, options := .strOpt "pending", id := .vnum 1 }
      ∧ mapGet (FilterMgr.newPendingTransactionFilter rpc s now).state.timers (.vnum 1)
          = some (.pending (now + timeoutInterval))
      ∧ mapGet (FilterMgr.newPendingTransactionFilter rpc s now).state.blockNumbers
          (.vnum 1) = none
      ∧ ∀ rpc2 : Rpc,
          (FilterMgr.getFilterChanges rpc2
              (FilterMgr.newPendingTransactionFilter rpc s now).state (.vstr "0x1")).res
            = .error "no filter found") := by
  have hkey : JsVal.vnum ((FilterMgr.mapKeysFnLength : Int) + 1) = JsVal.vnum 1 := by decide
  have hx : hexToInt (.vstr "0x1") = .vnum 1 := by decide
  refine ⟨?_, ?_, ?_⟩
  · intro rpc s p now e opts hnorm hbn hnc
    have hrun : FilterMgr.newFilter rpc s p now =
        ⟨.error e,
         { s with
           filters := mapSet s.filters (.vnum 1)
             { type := .log, options := .logOpts opts, id := .vnum 1 }
           timers := FilterMgr.setupTimer s.timers (.vnum 1) now },
         [.getBlockNumber]⟩ := by
      unfold FilterMgr.newFilter
      rw [hnorm]
      dsimp only
      unfold FilterMgr.installFilter
      dsimp only
      rw [hbn, hkey]
    rw [hrun]
    have hfget : mapGet
        (mapSet s.filters (.vnum 1)
          { type := .log, options := .logOpts opts, id := .vnum 1 : Filter })
        (.vnum 1)
        = some { type := .log, options := .logOpts opts, id := .vnum 1 : Filter } := by
      rw [mapGet_mapSet]
      simp
    refine ⟨rfl, hfget, ?_, hnc, ?_⟩
    · rw [setupTimer_get]
      simp
    · intro rpc2
      rw [getFilterChanges_log rpc2 _ (.vstr "0x1")
          { type := .log, options := .logOpts opts, id := .vnum 1 }
          (by rw [hx]; exact hfget) rfl]
      unfold FilterMgr.getLogFilterChanges
      dsimp only
      rw [hfget]
      dsimp only
      rw [hnc]
      dsimp only [Option.getD]
      rw [if_pos (by simp [FilterOptions.isTruthy, truthy])]
  · intro rpc s now e hbn hnc
    have hrun : FilterMgr.newBlockFilter rpc s now =
        ⟨.error e,
         { s with
           filters := mapSet s.filters (.vnum 1)
             { type := .block, options := .strOpt "latest", id := .vnum 1 }
           timers := FilterMgr.setupTimer s.timers (.vnum 1) now },
         [.getBlockNumber]⟩ := by
      unfold FilterMgr.newBlockFilter
      dsimp only
      unfold FilterMgr.installFilter
      dsimp only
      rw [hbn, hkey]
    rw [hrun]
    have hfget : mapGet
        (mapSet s.filters (.vnum 1)
          { type := .block, options := .strOpt "latest", id := .vnum 1 : Filter })
        (.vnum 1)
        = some { type := .block, options := .strOpt "latest", id := .vnum 1 : Filter } := by
      rw [mapGet_mapSet]
      simp
    refine ⟨rfl, hfget, ?_, hnc, ?_⟩
    · rw [setupTimer_get]
      simp
    · intro rpc2
      rw [getFilterChanges_block rpc2 _ (.vstr "0x1")
          { type := .block, options := .strOpt "latest", id := .vnum 1 }
          (by rw [hx]; exact hfget) rfl]
      unfold FilterMgr.getBlockFilterChanges FilterMgr.getBlocksForFilter
      dsimp only
      rw [hnc]
      dsimp only [Option.getD]
      rw [if_pos (by simp [truthy])]
      rfl
  · intro rpc s now e hbn hnc
    have hrun : FilterMgr.newPendingTransactionFilter rpc s now =
        ⟨.error e,
         { s with
           filters := mapSet s.filters (.vnum 1)
             { type := .tx, options := .strOpt "pending", id := .vnum 1 }
           timers := FilterMgr.setupTimer s.timers (.vnum 1) now },
         [.getBlockNumber]⟩ := by
      unfold FilterMgr.newPendingTransactionFilter
      dsimp only
      unfold FilterMgr.installFilter
      dsimp only
      rw [hbn, hkey]
    rw [hrun]
    have hfget : mapGet
        (mapSet s.filters (.vnum 1)
          { type := .tx, options := .strOpt "pending", id := .vnum 1 : Filter })
        (.vnum 1)
        = some { type := .tx, options := .strOpt "pending", id := .vnum 1 : Filter } := by
      rw [mapGet_mapSet]
      simp
    refine ⟨rfl, hfget, ?_, hnc, ?_⟩
    · rw [setupTimer_get]
      simp
    · intro rpc2
      rw [getFilterChanges_tx rpc2 _ (.vstr "0x1")
          { type := .tx, options := .strOpt "pending", id := .vnum 1 }
          (by rw [hx]; exact hfget) rfl]
      unfold FilterMgr.getTxFilterChanges FilterMgr.getBlocksForFilter
      dsimp only
      rw [hnc]
      dsimp only [Option.getD]
      rw [if_pos (by simp [truthy])]
      rfl

/-- Claim C10, witness: each of the three creation paths against a
transport whose head fetch fails, from a fresh manager. -/
theorem C10_witness :
    ((FilterMgr.newFilter failRpc initState
        { fromBlock := .vundef, toBlock := .vundef, address := .undefP, topics := .undefT }
        0).res = .error "BlockFetchError: head fetch failed"
      ∧ mapGet (FilterMgr.newFilter failRpc initState
          { fromBlock := .vundef, toBlock := .vundef, address := .undefP, topics := .undefT }
          0).state.filters (.vnum 1)
        = some { type := .log, options := .logOpts logOptsLatest, id := .vnum 1 }
      ∧ mapGet (FilterMgr.newFilter failRpc initState
          { fromBlock := .vundef, toBlock := .vundef, address := .undefP, topics := .undefT }
          0).state.timers (.vnum 1) = some (.pending (0 + timeoutInterval))
      ∧ mapGet (FilterMgr.newFilter failRpc initState
          { fromBlock := .vundef, toBlock := .vundef, address := .undefP, topics := .undefT }
          0).state.blockNumbers (.vnum 1) = none
      ∧ (FilterMgr.getFilterChanges okRpc
          (FilterMgr.newFilter failRpc initState
            { fromBlock := .vundef, toBlock := .vundef, address := .undefP, topics := .undefT }
            0).state (.vstr "0x1")).res
        = .error "_getLogFilterChanges: no filter found")
    ∧ ((FilterMgr.newBlockFilter failRpc initState 0).res
        = .error "BlockFetchError: head fetch failed"
      ∧ mapGet (FilterMgr.newBlockFilter failRpc initState 0).state.filters (.vnum 1)
        = some { type := .block, options := .strOpt "latest", id := .vnum 1 }
      ∧ mapGet (FilterMgr.newBlockFilter failRpc initState 0).state.timers (.vnum 1)
        = some (.pending (0 + timeoutInterval))
      ∧ mapGet (FilterMgr.newBlockFilter failRpc initState 0).state.blockNumbers
          (.vnum 1) = none
      ∧ (FilterMgr.getFilterChanges okRpc
          (FilterMgr.newBlockFilter failRpc initState 0).state (.vstr "0x1")).res
        = .error "no filter found")
    ∧ ((FilterMgr.newPendingTransactionFilter failRpc initState 0).res
        = .error "BlockFetchError: head fetch failed"
      ∧ mapGet (FilterMgr.newPendingTransactionFilter failRpc initState
          0).state.filters (.vnum 1)
        = some { type := .tx, options := .strOpt "pending", id := .vnum 1 }
      ∧ mapGet (FilterMgr.newPendingTransactionFilter failRpc initState
          0).state.timers (.vnum 1) = some (.pending (0 + timeoutInterval))
      ∧ mapGet (FilterMgr.newPendingTransactionFilter failRpc initState
          0).state.blockNumbers (.vnum 1) = none
      ∧ (FilterMgr.getFilterChanges okRpc
          (FilterMgr.newPendingTransactionFilter failRpc initState 0).state
          (.vstr "0x1")).res
        = .error "no filter found") := by
  have h1 := C10_holds.1 failRpc initState
    { fromBlock := .vundef, toBlock := .vundef, address := .undefP, topics := .undefT }
    0 "BlockFetchError: head fetch failed" logOptsLatest
    (by decide) rfl (by decide)
  have h2 := C10_holds.2.1 failRpc initState 0 "BlockFetchError: head fetch failed"
    rfl (by decide)
  have h3 := C10_holds.2.2 failRpc initState 0 "BlockFetchError: head fetch failed"
    rfl (by decide)
  exact ⟨⟨h1.1, h1.2.1, h1.2.2.1, h1.2.2.2.1, h1.2.2.2.2 okRpc⟩,
         ⟨h2.1, h2.2.1, h2.2.2.1, h2.2.2.2.1, h2.2.2.2.2 okRpc⟩,
         ⟨h3.1, h3.2.1, h3.2.2.1, h3.2.2.2.1, h3.2.2.2.2 okRpc⟩⟩

end Web3
